import Mathlib

/-!
Shallow embedding of the sendwithus Go client (`swu.go`).

The client marshals typed request structures to JSON, issues one HTTP
request per public operation through the shared primitive `makeRequest`,
and unmarshals JSON responses into typed result structures.  We embed:

* a JSON value type together with the encoder (`Json.render`, matching the
  output of Go's `encoding/json.Marshal`: members in struct declaration
  order, map keys sorted, no whitespace, HTML-escaping of `<`, `>`, `&`)
  and a decoder (`Json.parse`, fuel-indexed recursive descent);
* the data-transfer records (`SWUTemplate`, `SWUEmail`, `SWULogResend`, ...)
  with their `Marshal`/unmarshal behaviour including `omitempty` handling
  and embedded-struct field promotion;
* the request pipeline `makeRequest` over an abstract transport outcome,
  with the error mapping of `newSWUError` and `buildRespJSON`.

Transport effects are modelled by passing the outcome of the single HTTP
exchange (`TransportResult`) into each operation; the operation returns the
request it issued together with the result the Go function returns.
Machine integers (`int`, `int64`) are modelled as `Int`; the claims never
exercise overflow.  `errors.Wrap` preserves the wrapped error and is
modelled as the identity on errors.
-/

namespace SWU

/-- A JSON value, as produced/consumed by `encoding/json` for the types in
`swu.go`.  Numbers are integers: every numeric field of the client's structs
is `int`/`int64` and no claim involves fractional numbers. -/
inductive Json where
  | null : Json
  | bool : Bool → Json
  | num : Int → Json
  | str : String → Json
  | arr : List Json → Json
  | obj : List (String × Json) → Json
deriving Repr

/-- Lower-case hexadecimal digit, for `\u00XX` escapes. -/
def hexDigit (n : Nat) : Char :=
  if n < 10 then Char.ofNat (48 + n) else Char.ofNat (87 + n)

/-- Escape one character the way Go's `encoding/json` encoder does inside a
string literal (with the default HTML escaping of `<`, `>`, `&`). -/
def escChar (c : Char) : String :=
  if c = '"' then "\\\""
  else if c = '\\' then "\\\\"
  else if c = '\n' then "\\n"
  else if c = '\r' then "\\r"
  else if c = '\t' then "\\t"
  else if c = '<' then "\\u003c"
  else if c = '>' then "\\u003e"
  else if c = '&' then "\\u0026"
  else if c.toNat < 32 then
    String.mk ['\\', 'u', '0', '0', hexDigit (c.toNat / 16), hexDigit (c.toNat % 16)]
  else String.singleton c

/-- Escape a whole string for inclusion in JSON output. -/
def jsonEscape (s : String) : String :=
  String.join (s.data.map escChar)

/-- The `\x7b` / `\x7d` brace characters. -/
def lbrace : Char := Char.ofNat 123

def rbrace : Char := Char.ofNat 125

mutual

/-- Serialize a JSON value exactly as Go's `encoding/json.Marshal` prints it:
no whitespace, object members in the order they were produced. -/
def Json.render : Json → String
  | .null => "null"
  | .bool true => "true"
  | .bool false => "false"
  | .num n => toString n
  | .str s => "\"" ++ jsonEscape s ++ "\""
  | .arr xs => "[" ++ Json.renderElems xs ++ "]"
  | .obj ms => "\x7b" ++ Json.renderMembers ms ++ "\x7d"

/-- Comma-separated rendering of array elements. -/
def Json.renderElems : List Json → String
  | [] => ""
  | [x] => Json.render x
  | x :: y :: xs => Json.render x ++ "," ++ Json.renderElems (y :: xs)

/-- Comma-separated rendering of object members. -/
def Json.renderMembers : List (String × Json) → String
  | [] => ""
  | [(k, v)] => "\"" ++ jsonEscape k ++ "\":" ++ Json.render v
  | (k, v) :: m :: ms =>
      "\"" ++ jsonEscape k ++ "\":" ++ Json.render v ++ "," ++ Json.renderMembers (m :: ms)

end

/-! ### JSON parsing (the decoding half of `encoding/json.Unmarshal`) -/

/-- JSON insignificant whitespace. -/
def isWs (c : Char) : Bool :=
  c = ' ' || c = '\n' || c = '\t' || c = '\r'

/-- Drop leading whitespace. -/
def skipWs (cs : List Char) : List Char :=
  cs.dropWhile isWs

/-- Value of a hexadecimal digit, if any. -/
def hexVal (c : Char) : Option Nat :=
  if '0' ≤ c ∧ c ≤ '9' then some (c.toNat - 48)
  else if 'a' ≤ c ∧ c ≤ 'f' then some (c.toNat - 87)
  else if 'A' ≤ c ∧ c ≤ 'F' then some (c.toNat - 55)
  else none

/-- Parse the four hex digits of a `\uXXXX` escape. -/
def parseUnicodeEscape : List Char → Except String (Char × List Char)
  | a :: b :: c :: d :: rest =>
    match hexVal a, hexVal b, hexVal c, hexVal d with
    | some va, some vb, some vc, some vd =>
        .ok (Char.ofNat (((va * 16 + vb) * 16 + vc) * 16 + vd), rest)
    | _, _, _, _ => .error "invalid unicode escape in string literal"
  | _ => .error "invalid unicode escape in string literal"

/-- Parse the remainder of a JSON string literal (the opening quote already
consumed), returning the decoded string and the rest of the input. -/
def parseStringBody : Nat → List Char → Except String (String × List Char)
  | 0, _ => .error "input too deeply nested"
  | _, [] => .error "unexpected end of JSON input"
  | fuel + 1, c :: cs =>
    if c = '"' then .ok ("", cs)
    else if c = '\\' then
      match cs with
      | [] => .error "unexpected end of JSON input"
      | e :: cs' =>
        let dec : Except String (Char × List Char) :=
          if e = '"' then .ok ('"', cs')
          else if e = '\\' then .ok ('\\', cs')
          else if e = '/' then .ok ('/', cs')
          else if e = 'b' then .ok (Char.ofNat 8, cs')
          else if e = 'f' then .ok (Char.ofNat 12, cs')
          else if e = 'n' then .ok ('\n', cs')
          else if e = 'r' then .ok ('\r', cs')
          else if e = 't' then .ok ('\t', cs')
          else if e = 'u' then parseUnicodeEscape cs'
          else .error "invalid character escape in string literal"
        match dec with
        | .error msg => .error msg
        | .ok (ch, rest) =>
          match parseStringBody fuel rest with
          | .ok (s, rest') => .ok (String.singleton ch ++ s, rest')
          | .error msg => .error msg
    else
      match parseStringBody fuel cs with
      | .ok (s, rest) => .ok (String.singleton c ++ s, rest)
      | .error msg => .error msg

/-- Decimal digit test. -/
def isDigit (c : Char) : Bool :=
  '0' ≤ c && c ≤ '9'

/-- Numeric value of a digit list. -/
def digitsToNat : List Char → Nat
  | [] => 0
  | ds => ds.foldl (fun acc d => acc * 10 + (d.toNat - 48)) 0

/-- Parse a JSON number.  The client's structs only carry `int`/`int64`
fields, so only integer literals are supported; a fraction or exponent is
reported as an error rather than silently truncated. -/
def parseNumber (cs : List Char) : Except String (Json × List Char) :=
  let (neg, cs') := match cs with
    | '-' :: rest => (true, rest)
    | _ => (false, cs)
  let digits := cs'.takeWhile isDigit
  let rest := cs'.dropWhile isDigit
  if digits.isEmpty then .error "invalid number literal"
  else
    match rest with
    | '.' :: _ => .error "unsupported non-integer number literal"
    | 'e' :: _ => .error "unsupported non-integer number literal"
    | 'E' :: _ => .error "unsupported non-integer number literal"
    | _ =>
      let n : Int := Int.ofNat (digitsToNat digits)
      .ok (.num (if neg then -n else n), rest)

/-- Check that the input starts with the given literal keyword. -/
def parseKeyword (kw : List Char) (v : Json) (cs : List Char) :
    Except String (Json × List Char) :=
  if cs.take kw.length = kw then .ok (v, cs.drop kw.length)
  else .error "invalid JSON value"

mutual

/-- Parse one JSON value (leading whitespace allowed). -/
def parseVal : Nat → List Char → Except String (Json × List Char)
  | 0, _ => .error "input too deeply nested"
  | fuel + 1, cs =>
    match skipWs cs with
    | [] => .error "unexpected end of JSON input"
    | c :: rest =>
      if c = '"' then
        match parseStringBody (rest.length + 1) rest with
        | .ok (s, rest') => .ok (.str s, rest')
        | .error msg => .error msg
      else if c = lbrace then parseObjBody fuel rest
      else if c = '[' then parseArrBody fuel rest
      else if c = 't' then parseKeyword ['t', 'r', 'u', 'e'] (.bool true) (c :: rest)
      else if c = 'f' then parseKeyword ['f', 'a', 'l', 's', 'e'] (.bool false) (c :: rest)
      else if c = 'n' then parseKeyword ['n', 'u', 'l', 'l'] .null (c :: rest)
      else if c = '-' || isDigit c then parseNumber (c :: rest)
      else .error "invalid JSON value"

/-- Parse the members of an object, the opening brace already consumed. -/
def parseObjBody (fuel : Nat) (cs : List Char) : Except String (Json × List Char) :=
  match fuel with
  | 0 => .error "input too deeply nested"
  | fuel + 1 =>
    match skipWs cs with
    | [] => .error "unexpected end of JSON input"
    | c :: rest =>
      if c = rbrace then .ok (.obj [], rest)
      else parseMembers fuel (c :: rest)

/-- Parse a non-empty comma-separated member list and the closing brace. -/
def parseMembers (fuel : Nat) (cs : List Char) :
    Except String (Json × List Char) :=
  match fuel with
  | 0 => .error "input too deeply nested"
  | fuel + 1 =>
    match skipWs cs with
    | '"' :: rest =>
      match parseStringBody (rest.length + 1) rest with
      | .error msg => .error msg
      | .ok (key, rest') =>
        match skipWs rest' with
        | ':' :: rest'' =>
          match parseVal fuel rest'' with
          | .error msg => .error msg
          | .ok (v, rest3) =>
            match skipWs rest3 with
            | ',' :: rest4 =>
              match parseMembers fuel rest4 with
              | .ok (.obj ms, rest5) => .ok (.obj ((key, v) :: ms), rest5)
              | .ok _ => .error "invalid JSON object"
              | .error msg => .error msg
            | c :: rest4 =>
              if c = rbrace then .ok (.obj [(key, v)], rest4)
              else .error "invalid character after object member"
            | [] => .error "unexpected end of JSON input"
        | _ => .error "expected colon after object key"
    | _ => .error "expected string as object key"

/-- Parse the elements of an array, the opening bracket already consumed. -/
def parseArrBody (fuel : Nat) (cs : List Char) : Except String (Json × List Char) :=
  match fuel with
  | 0 => .error "input too deeply nested"
  | fuel + 1 =>
    match skipWs cs with
    | [] => .error "unexpected end of JSON input"
    | c :: rest =>
      if c = ']' then .ok (.arr [], rest)
      else parseElems fuel (c :: rest)

/-- Parse a non-empty comma-separated element list and the closing bracket. -/
def parseElems (fuel : Nat) (cs : List Char) : Except String (Json × List Char) :=
  match fuel with
  | 0 => .error "input too deeply nested"
  | fuel + 1 =>
    match parseVal fuel cs with
    | .error msg => .error msg
    | .ok (v, rest) =>
      match skipWs rest with
      | ',' :: rest' =>
        match parseElems fuel rest' with
        | .ok (.arr vs, rest'') => .ok (.arr (v :: vs), rest'')
        | .ok _ => .error "invalid JSON array"
        | .error msg => .error msg
      | ']' :: rest' => .ok (.arr [v], rest')
      | _ => .error "invalid character after array element"

end

/-- Parse a complete JSON document, rejecting trailing garbage — the model of
the scanning phase of `encoding/json.Unmarshal`. -/
def Json.parse (s : String) : Except String Json :=
  match parseVal (s.length + 2) s.data with
  | .error msg => .error msg
  | .ok (v, rest) =>
    if (skipWs rest).isEmpty then .ok v
    else .error "invalid character after top-level value"

/-! ### Client, transport model and the request pipeline -/

/-- `swuEndpoint` constant from `swu.go`. -/
def swuEndpoint : String := "https://api.sendwithus.com/api/v1"

/-- `apiHeaderClient` constant from `swu.go`. -/
def apiHeaderClient : String := "golang-0.0.1"

/-- `SWUClient`: base URL and API key.  The `Client *http.Client` transport
is modelled by the `TransportResult` passed to each operation. -/
structure SWUClient where
  apiKey : String
  URL : String
deriving DecidableEq, Repr

/-- The client returned by `New`. -/
def New (apiKey : String) : SWUClient :=
  { apiKey := apiKey, URL := swuEndpoint }

/-- The HTTP request `makeRequest` hands to the transport: method, full URL,
optional payload, the basic-auth credentials set via `SetBasicAuth`, and the
`X-SWU-API-CLIENT` header value. -/
structure HTTPRequest where
  method : String
  url : String
  body : Option String
  basicAuthUser : String
  basicAuthPass : String
  apiClientHeader : String
deriving DecidableEq, Repr

/-- Outcome of reading the response body (`ioutil.ReadAll`). -/
inductive BodyRead where
  | ok (body : String)
  | readError (msg : String)
deriving DecidableEq, Repr

/-- Outcome of the single HTTP exchange (`c.Client.Do(r)`).
`doError` is `Do` returning a non-nil error, carrying the status code of the
response when one accompanies the error and `none` when no response was
produced; `response` is a successful exchange with the given status code and
the outcome of reading its body. -/
inductive TransportResult where
  | doError (resStatus : Option Nat) (errMsg : String)
  | response (statusCode : Nat) (bodyRead : BodyRead)
deriving DecidableEq, Repr

/-- `SWUError`: numeric status code plus message. -/
structure SWUError where
  Code : Nat
  Message : String
deriving DecidableEq, Repr

/-- `newSWUError`: message always set; `Code` stays `0` unless a response is
available, in which case it is the response's status code. -/
def newSWUError (res : Option Nat) (message : String) : SWUError :=
  let s : SWUError := { Code := 0, Message := message }
  match res with
  | some code => { s with Code := code }
  | none => s

/-- The `Error()` string of an `SWUError`. -/
def SWUError.errorString (e : SWUError) : String :=
  "swu.go: Status code: " ++ toString e.Code ++ ", Error: " ++ e.Message

/-- The errors a call can propagate.  `swu e` is a `*SWUError` (wrapped by
`errors.Wrap`, which preserves it); `jsonErr msg` is the error returned by
`json.Unmarshal` itself, wrapped unchanged by `buildRespJSON` — it carries
only the decoder's message, not a status code. -/
inductive ReqError where
  | swu (e : SWUError)
  | jsonErr (msg : String)
deriving DecidableEq, Repr

/-- Whether a finished call failed with the status-carrying `SWUError` shape
(a numeric `Code` field and a `Message` field). -/
def failedWithSWUError {α : Type} : Except ReqError α → Bool
  | .error (.swu _) => true
  | _ => false

/-- Whether a finished call failed with the JSON decoder's own error. -/
def failedWithJSONErr {α : Type} : Except ReqError α → Bool
  | .error (.jsonErr _) => true
  | _ => false

/-- `buildRespJSON`: run `json.Unmarshal` (here: the sink's decoding
function) on the body; its error is wrapped as-is. -/
def buildRespJSON {α : Type} (b : String) (parse : String → Except String α) :
    Except ReqError α :=
  match parse b with
  | .error msg => .error (.jsonErr msg)
  | .ok a => .ok a

/-- `makeRequest`: build the request, run the exchange, and map the outcome.

* `Do` failed → `SWUError` via `newSWUError` (code `0` without a response);
* reading the body failed → `SWUError` with the response's status code;
* status ≥ 300 → `SWUError` with the status code and the raw body text;
* status < 300 with a sink → `buildRespJSON`; without a sink → success,
  the body having been read and discarded.

Returns the request issued together with the call's result (`some` parsed
value when a sink was supplied). -/
def makeRequest {α : Type} (c : SWUClient) (method endpoint : String)
    (body : Option String) (t : TransportResult)
    (result : Option (String → Except String α)) :
    HTTPRequest × Except ReqError (Option α) :=
  let r : HTTPRequest :=
    { method := method
      url := c.URL ++ endpoint
      body := body
      basicAuthUser := c.apiKey
      basicAuthPass := ""
      apiClientHeader := apiHeaderClient }
  (r, match t with
      | .doError st msg => .error (.swu (newSWUError st msg))
      | .response status bodyRead =>
        match bodyRead with
        | .readError msg => .error (.swu (newSWUError (some status) msg))
        | .ok b =>
          if 300 ≤ status then .error (.swu (newSWUError (some status) b))
          else
            match result with
            | none => .ok none
            | some parse =>
              match buildRespJSON b parse with
              | .error e => .error e
              | .ok a => .ok (some a))

/-! ### Data-transfer records

Go pointers become `Option`, slices become `List` (`omitempty` omits both a
nil and an empty slice, hence omission on `[]`), `map[string]string` becomes
an association list whose keys the encoder sorts, exactly as
`encoding/json` does for maps.  Embedded structs (`SWUSender`,
`SWULog`) have their fields promoted: marshalled inline, first. -/

/-- `SWUVersion`. -/
structure SWUVersion where
  Name : String := ""
  ID : String := ""
  Created : Int := 0
  HTML : String := ""
  Text : String := ""
  Subject : String := ""
  Published : Bool := false
deriving DecidableEq, Repr

/-- `SWUTemplate`.  `Versions []*SWUVersion` is modelled as a list of
versions. -/
structure SWUTemplate where
  ID : String := ""
  Tags : List String := []
  Created : Int := 0
  Versions : List SWUVersion := []
  Name : String := ""
deriving DecidableEq, Repr

/-- `SWURecipient`. -/
structure SWURecipient where
  Address : String := ""
  Name : String := ""
deriving DecidableEq, Repr

/-- `SWUSender`: embeds `SWURecipient`, adds `ReplyTo`. -/
structure SWUSender where
  toSWURecipient : SWURecipient := {}
  ReplyTo : String := ""
deriving DecidableEq, Repr

/-- `SWUAttachment`. -/
structure SWUAttachment where
  ID : String := ""
  Data : String := ""
deriving DecidableEq, Repr

/-- `SWUEmail`. -/
structure SWUEmail where
  ID : String := ""
  Recipient : Option SWURecipient := none
  CC : List SWURecipient := []
  BCC : List SWURecipient := []
  Sender : Option SWUSender := none
  EmailData : List (String × String) := []
  Headers : List (String × String) := []
  Tags : List String := []
  Inline : Option SWUAttachment := none
  Files : List SWUAttachment := []
  ESPAccount : String := ""
  VersionName : String := ""
deriving DecidableEq, Repr

/-- `SWUDripCampaign`. -/
structure SWUDripCampaign where
  Recipient : Option SWURecipient := none
  CC : List SWURecipient := []
  BCC : List SWURecipient := []
  Sender : Option SWUSender := none
  EmailData : List (String × String) := []
  Headers : List (String × String) := []
  Tags : List String := []
  ESPAccount : String := ""
  Locale : String := ""
deriving DecidableEq, Repr

/-- `SWULogEvent`. -/
structure SWULogEvent where
  Object : String := ""
  Created : Int := 0
  Type' : String := ""
  Message : String := ""
deriving DecidableEq, Repr

/-- `SWULogQuery`: serialized as a URL query via `url` tags, never as a JSON
body. -/
structure SWULogQuery where
  Count : Int := 0
  Offset : Int := 0
  CreatedGT : Int := 0
  CreatedGTE : Int := 0
  CreatedLT : Int := 0
  CreatedLTE : Int := 0
deriving DecidableEq, Repr

/-- `SWULog`: embeds `SWULogEvent`. -/
structure SWULog where
  toSWULogEvent : SWULogEvent := {}
  ID : String := ""
  RecipientName : String := ""
  RecipientAddress : String := ""
  Status : String := ""
  EmailID : String := ""
  EmailName : String := ""
  EmailVersion : String := ""
  EventsURL : String := ""
deriving DecidableEq, Repr

/-- The anonymous `Email` struct inside `SWULogResend`: its two fields carry
no `omitempty`, so they are always marshalled. -/
structure SWULogResendEmail where
  Name : String := ""
  VersionName : String := ""
deriving DecidableEq, Repr

/-- `SWULogResend`.  Field order: `Success`, `Status`, `ID` (key `log_id`),
`Email` (key `email`, no `omitempty`). -/
structure SWULogResend where
  Success : Bool := false
  Status : String := ""
  ID : String := ""
  Email : SWULogResendEmail := {}
deriving DecidableEq, Repr

/-! ### Marshalling (the `json.Marshal` behaviour of each struct) -/

/-- Insert a pair into a key-sorted list. -/
def insertByKey (p : String × String) :
    List (String × String) → List (String × String)
  | [] => [p]
  | q :: qs => if p.1 ≤ q.1 then p :: q :: qs else q :: insertByKey p qs

/-- Sort an association list by key — `encoding/json` marshals map keys in
sorted order, and `url.Values.Encode` emits keys in sorted order. -/
def sortByKey : List (String × String) → List (String × String)
  | [] => []
  | p :: ps => insertByKey p (sortByKey ps)

/-- Marshal a `map[string]string`: object with sorted keys. -/
def mapJson (m : List (String × String)) : Json :=
  .obj ((sortByKey m).map fun p => (p.1, Json.str p.2))

/-- Members contributed by `SWURecipient`'s fields (each `omitempty`). -/
def SWURecipient.marshalMembers (r : SWURecipient) : List (String × Json) :=
  (if r.Address = "" then [] else [("address", Json.str r.Address)]) ++
  (if r.Name = "" then [] else [("name", Json.str r.Name)])

/-- `json.Marshal` of `SWURecipient`. -/
def SWURecipient.marshal (r : SWURecipient) : Json :=
  .obj r.marshalMembers

/-- `json.Marshal` of `SWUSender`: the embedded recipient's fields are
promoted and come first. -/
def SWUSender.marshal (s : SWUSender) : Json :=
  .obj (s.toSWURecipient.marshalMembers ++
    (if s.ReplyTo = "" then [] else [("reply_to", Json.str s.ReplyTo)]))

/-- `json.Marshal` of `SWUAttachment`. -/
def SWUAttachment.marshal (a : SWUAttachment) : Json :=
  .obj ((if a.ID = "" then [] else [("id", Json.str a.ID)]) ++
    (if a.Data = "" then [] else [("data", Json.str a.Data)]))

/-- `json.Marshal` of `SWUVersion`: every field `omitempty`, declaration
order. -/
def SWUVersion.marshal (v : SWUVersion) : Json :=
  .obj ((if v.Name = "" then [] else [("name", Json.str v.Name)]) ++
    (if v.ID = "" then [] else [("id", Json.str v.ID)]) ++
    (if v.Created = 0 then [] else [("created", Json.num v.Created)]) ++
    (if v.HTML = "" then [] else [("html", Json.str v.HTML)]) ++
    (if v.Text = "" then [] else [("text", Json.str v.Text)]) ++
    (if v.Subject = "" then [] else [("subject", Json.str v.Subject)]) ++
    (if v.Published then [("published", Json.bool true)] else []))

/-- `json.Marshal` of `SWUTemplate`: every field `omitempty`, declaration
order `id`, `tags`, `created`, `versions`, `name`. -/
def SWUTemplate.marshal (t : SWUTemplate) : Json :=
  .obj ((if t.ID = "" then [] else [("id", Json.str t.ID)]) ++
    (if t.Tags.isEmpty then [] else [("tags", Json.arr (t.Tags.map Json.str))]) ++
    (if t.Created = 0 then [] else [("created", Json.num t.Created)]) ++
    (if t.Versions.isEmpty then []
     else [("versions", Json.arr (t.Versions.map SWUVersion.marshal))]) ++
    (if t.Name = "" then [] else [("name", Json.str t.Name)]))

/-- `json.Marshal` of `SWUEmail`: every field `omitempty`, declaration
order. -/
def SWUEmail.marshal (e : SWUEmail) : Json :=
  .obj ((if e.ID = "" then [] else [("email_id", Json.str e.ID)]) ++
    (match e.Recipient with
     | none => []
     | some r => [("recipient", r.marshal)]) ++
    (if e.CC.isEmpty then []
     else [("cc", Json.arr (e.CC.map SWURecipient.marshal))]) ++
    (if e.BCC.isEmpty then []
     else [("bcc", Json.arr (e.BCC.map SWURecipient.marshal))]) ++
    (match e.Sender with
     | none => []
     | some s => [("sender", s.marshal)]) ++
    (if e.EmailData.isEmpty then [] else [("email_data", mapJson e.EmailData)]) ++
    (if e.Headers.isEmpty then [] else [("headers", mapJson e.Headers)]) ++
    (if e.Tags.isEmpty then [] else [("tags", Json.arr (e.Tags.map Json.str))]) ++
    (match e.Inline with
     | none => []
     | some a => [("inline", a.marshal)]) ++
    (if e.Files.isEmpty then []
     else [("files", Json.arr (e.Files.map SWUAttachment.marshal))]) ++
    (if e.ESPAccount = "" then [] else [("esp_account", Json.str e.ESPAccount)]) ++
    (if e.VersionName = "" then [] else [("version_name", Json.str e.VersionName)]))

/-- `json.Marshal` of `SWUDripCampaign`: every field `omitempty`,
declaration order. -/
def SWUDripCampaign.marshal (d : SWUDripCampaign) : Json :=
  .obj ((match d.Recipient with
     | none => []
     | some r => [("recipient", r.marshal)]) ++
    (if d.CC.isEmpty then []
     else [("cc", Json.arr (d.CC.map SWURecipient.marshal))]) ++
    (if d.BCC.isEmpty then []
     else [("bcc", Json.arr (d.BCC.map SWURecipient.marshal))]) ++
    (match d.Sender with
     | none => []
     | some s => [("sender", s.marshal)]) ++
    (if d.EmailData.isEmpty then [] else [("email_data", mapJson d.EmailData)]) ++
    (if d.Headers.isEmpty then [] else [("headers", mapJson d.Headers)]) ++
    (if d.Tags.isEmpty then [] else [("tags", Json.arr (d.Tags.map Json.str))]) ++
    (if d.ESPAccount = "" then [] else [("esp_account", Json.str d.ESPAccount)]) ++
    (if d.Locale = "" then [] else [("locale", Json.str d.Locale)]))

/-- `json.Marshal` of `SWULogResend`: `success`, `status`, `log_id` are
`omitempty`; `email` never is, so the anonymous struct is always emitted
with both of its keys. -/
def SWULogResend.marshal (r : SWULogResend) : Json :=
  .obj ((if r.Success then [("success", Json.bool true)] else []) ++
    (if r.Status = "" then [] else [("status", Json.str r.Status)]) ++
    (if r.ID = "" then [] else [("log_id", Json.str r.ID)]) ++
    [("email", Json.obj [("name", Json.str r.Email.Name),
                         ("version_name", Json.str r.Email.VersionName)])])

/-! ### Unmarshalling (the `json.Unmarshal` behaviour of each sink type)

`json.Unmarshal` into a struct: a `null` document or field has no effect on
non-pointer, non-slice targets; a known key of the matching type overwrites
that field; an unknown key is ignored; a value of the wrong type is an
error; a field absent from the document keeps its prior value. -/

/-- Decode a JSON value into a string field: overwrite on a string, no-op on
`null`. -/
def mergeStr (j : Json) (old : String) : Except String String :=
  match j with
  | .str s => .ok s
  | .null => .ok old
  | _ => .error "json: cannot unmarshal value into field of type string"

/-- Decode a JSON value into an integer field. -/
def mergeInt (j : Json) (old : Int) : Except String Int :=
  match j with
  | .num n => .ok n
  | .null => .ok old
  | _ => .error "json: cannot unmarshal value into field of type int64"

/-- Decode a JSON value into a boolean field. -/
def mergeBool (j : Json) (old : Bool) : Except String Bool :=
  match j with
  | .bool b => .ok b
  | .null => .ok old
  | _ => .error "json: cannot unmarshal value into field of type bool"

/-- Decode a JSON value into a `[]string` field: `null` sets the slice to
nil. -/
def mergeStrList (j : Json) (_old : List String) : Except String (List String) :=
  match j with
  | .arr xs => xs.mapM fun x => mergeStr x ""
  | .null => .ok []
  | _ => .error "json: cannot unmarshal value into field of type []string"

/-- Decode one JSON object into a struct value, folding a per-member update
over the members.  A `null` document leaves the target unchanged. -/
def unmarshalObj {α : Type} (step : α → String × Json → Except String α)
    (init : α) : Json → Except String α
  | .obj ms => ms.foldlM step init
  | .null => .ok init
  | _ => .error "json: cannot unmarshal value into Go struct"

/-- One member of a JSON object decoded into `SWUVersion`. -/
def SWUVersion.applyMember (v : SWUVersion) : String × Json → Except String SWUVersion
  | ("name", j) => (mergeStr j v.Name).map fun s => { v with Name := s }
  | ("id", j) => (mergeStr j v.ID).map fun s => { v with ID := s }
  | ("created", j) => (mergeInt j v.Created).map fun n => { v with Created := n }
  | ("html", j) => (mergeStr j v.HTML).map fun s => { v with HTML := s }
  | ("text", j) => (mergeStr j v.Text).map fun s => { v with Text := s }
  | ("subject", j) => (mergeStr j v.Subject).map fun s => { v with Subject := s }
  | ("published", j) => (mergeBool j v.Published).map fun b => { v with Published := b }
  | _ => .ok v

/-- `json.Unmarshal` of one JSON value into an `SWUVersion`. -/
def SWUVersion.unmarshalInto (v : SWUVersion) (j : Json) : Except String SWUVersion :=
  unmarshalObj SWUVersion.applyMember v j

/-- Decode a `[]*SWUVersion` field; a `null` element is a nil pointer,
modelled as the zero version. -/
def mergeVersionList (j : Json) (_old : List SWUVersion) :
    Except String (List SWUVersion) :=
  match j with
  | .arr xs => xs.mapM fun x =>
      match x with
      | .null => .ok {}
      | _ => SWUVersion.unmarshalInto {} x
  | .null => .ok []
  | _ => .error "json: cannot unmarshal value into field of type []*SWUVersion"

/-- One member of a JSON object decoded into `SWUTemplate`. -/
def SWUTemplate.applyMember (t : SWUTemplate) : String × Json → Except String SWUTemplate
  | ("id", j) => (mergeStr j t.ID).map fun s => { t with ID := s }
  | ("tags", j) => (mergeStrList j t.Tags).map fun l => { t with Tags := l }
  | ("created", j) => (mergeInt j t.Created).map fun n => { t with Created := n }
  | ("versions", j) => (mergeVersionList j t.Versions).map fun l => { t with Versions := l }
  | ("name", j) => (mergeStr j t.Name).map fun s => { t with Name := s }
  | _ => .ok t

/-- `json.Unmarshal` of one JSON value into an `SWUTemplate`. -/
def SWUTemplate.unmarshalInto (t : SWUTemplate) (j : Json) : Except String SWUTemplate :=
  unmarshalObj SWUTemplate.applyMember t j

/-- `json.Unmarshal` into `[]*SWUTemplate`: a JSON array decoded
elementwise (a `null` element is a nil pointer, modelled zero); a `null`
document leaves the slice nil. -/
def decodeTemplateList (j : Json) : Except String (List SWUTemplate) :=
  match j with
  | .arr xs => xs.mapM fun x =>
      match x with
      | .null => .ok {}
      | _ => SWUTemplate.unmarshalInto {} x
  | .null => .ok []
  | _ => .error "json: cannot unmarshal value into Go value of type []*SWUTemplate"

/-- One member of a JSON object decoded into `SWULogEvent`. -/
def SWULogEvent.applyMember (e : SWULogEvent) : String × Json → Except String SWULogEvent
  | ("object", j) => (mergeStr j e.Object).map fun s => { e with Object := s }
  | ("created", j) => (mergeInt j e.Created).map fun n => { e with Created := n }
  | ("type", j) => (mergeStr j e.Type').map fun s => { e with Type' := s }
  | ("message", j) => (mergeStr j e.Message).map fun s => { e with Message := s }
  | _ => .ok e

/-- `json.Unmarshal` of one JSON value into an `SWULogEvent`. -/
def SWULogEvent.unmarshalInto (e : SWULogEvent) (j : Json) : Except String SWULogEvent :=
  unmarshalObj SWULogEvent.applyMember e j

/-- One member of a JSON object decoded into `SWULog`; the embedded
`SWULogEvent`'s keys are promoted. -/
def SWULog.applyMember (l : SWULog) : String × Json → Except String SWULog
  | ("object", j) => (SWULogEvent.applyMember l.toSWULogEvent ("object", j)).map
      fun e => { l with toSWULogEvent := e }
  | ("created", j) => (SWULogEvent.applyMember l.toSWULogEvent ("created", j)).map
      fun e => { l with toSWULogEvent := e }
  | ("type", j) => (SWULogEvent.applyMember l.toSWULogEvent ("type", j)).map
      fun e => { l with toSWULogEvent := e }
  | ("message", j) => (SWULogEvent.applyMember l.toSWULogEvent ("message", j)).map
      fun e => { l with toSWULogEvent := e }
  | ("id", j) => (mergeStr j l.ID).map fun s => { l with ID := s }
  | ("recipient_name", j) => (mergeStr j l.RecipientName).map fun s => { l with RecipientName := s }
  | ("recipient_address", j) => (mergeStr j l.RecipientAddress).map fun s => { l with RecipientAddress := s }
  | ("status", j) => (mergeStr j l.Status).map fun s => { l with Status := s }
  | ("email_id", j) => (mergeStr j l.EmailID).map fun s => { l with EmailID := s }
  | ("email_name", j) => (mergeStr j l.EmailName).map fun s => { l with EmailName := s }
  | ("email_version", j) => (mergeStr j l.EmailVersion).map fun s => { l with EmailVersion := s }
  | ("events_url", j) => (mergeStr j l.EventsURL).map fun s => { l with EventsURL := s }
  | _ => .ok l

/-- `json.Unmarshal` of one JSON value into an `SWULog`. -/
def SWULog.unmarshalInto (l : SWULog) (j : Json) : Except String SWULog :=
  unmarshalObj SWULog.applyMember l j

/-- `json.Unmarshal` into `[]*SWULog`. -/
def decodeLogList (j : Json) : Except String (List SWULog) :=
  match j with
  | .arr xs => xs.mapM fun x =>
      match x with
      | .null => .ok {}
      | _ => SWULog.unmarshalInto {} x
  | .null => .ok []
  | _ => .error "json: cannot unmarshal value into Go value of type []*SWULog"

/-- One member decoded into the anonymous `Email` struct of `SWULogResend`. -/
def SWULogResendEmail.applyMember (e : SWULogResendEmail) :
    String × Json → Except String SWULogResendEmail
  | ("name", j) => (mergeStr j e.Name).map fun s => { e with Name := s }
  | ("version_name", j) => (mergeStr j e.VersionName).map fun s => { e with VersionName := s }
  | _ => .ok e

/-- One member of a JSON object decoded into `SWULogResend`. -/
def SWULogResend.applyMember (r : SWULogResend) : String × Json → Except String SWULogResend
  | ("success", j) => (mergeBool j r.Success).map fun b => { r with Success := b }
  | ("status", j) => (mergeStr j r.Status).map fun s => { r with Status := s }
  | ("log_id", j) => (mergeStr j r.ID).map fun s => { r with ID := s }
  | ("email", j) => (unmarshalObj SWULogResendEmail.applyMember r.Email j).map
      fun e => { r with Email := e }
  | _ => .ok r

/-- `json.Unmarshal` of one JSON value into an `SWULogResend` — crucially
into the value the caller supplies, whose fields survive when absent from
the document. -/
def SWULogResend.unmarshalInto (r : SWULogResend) (j : Json) : Except String SWULogResend :=
  unmarshalObj SWULogResend.applyMember r j

/-- A result sink: parse the body as JSON, then decode into the supplied
initial value. -/
def jsonSink {α : Type} (dec : α → Json → Except String α) (init : α)
    (b : String) : Except String α :=
  match Json.parse b with
  | .error msg => .error msg
  | .ok j => dec init j

/-- On success, a call with a result sink always sees the decoded value; the
default supplied here is the sink's initial value, matching Go's `parse`
variable. -/
def extractSome {α : Type} (dflt : α) : Except ReqError (Option α) → Except ReqError α
  | .error e => .error e
  | .ok o => .ok (o.getD dflt)

/-! ### Public operations

Each returns the `HTTPRequest` it issued together with the value the Go
method returns. -/

/-- `Emails`: GET `/templates` into `[]*SWUTemplate`. -/
def Emails (c : SWUClient) (t : TransportResult) :
    HTTPRequest × Except ReqError (List SWUTemplate) :=
  let out := makeRequest c "GET" "/templates" none t
    (some fun b =>
      match Json.parse b with
      | .error msg => .error msg
      | .ok j => decodeTemplateList j)
  (out.1, extractSome [] out.2)

/-- `Templates` simply calls `Emails`. -/
def Templates (c : SWUClient) (t : TransportResult) :
    HTTPRequest × Except ReqError (List SWUTemplate) :=
  Emails c t

/-- `GetTemplate`: GET `/templates/{id}`. -/
def GetTemplate (c : SWUClient) (id : String) (t : TransportResult) :
    HTTPRequest × Except ReqError SWUTemplate :=
  let out := makeRequest c "GET" ("/templates/" ++ id) none t
    (some (jsonSink SWUTemplate.unmarshalInto {}))
  (out.1, extractSome {} out.2)

/-- `GetTemplateVersion`: GET `/templates/{id}/versions/{version}`. -/
def GetTemplateVersion (c : SWUClient) (id version : String) (t : TransportResult) :
    HTTPRequest × Except ReqError SWUVersion :=
  let out := makeRequest c "GET" ("/templates/" ++ id ++ "/versions/" ++ version) none t
    (some (jsonSink SWUVersion.unmarshalInto {}))
  (out.1, extractSome {} out.2)

/-- `UpdateTemplateVersion`: PUT `/templates/{id}/versions/{version}` with a
marshalled `SWUVersion` body. -/
def UpdateTemplateVersion (c : SWUClient) (id version : String)
    (template : SWUVersion) (t : TransportResult) :
    HTTPRequest × Except ReqError SWUVersion :=
  let out := makeRequest c "PUT" ("/templates/" ++ id ++ "/versions/" ++ version)
    (some (Json.render template.marshal)) t
    (some (jsonSink SWUVersion.unmarshalInto {}))
  (out.1, extractSome {} out.2)

/-- `CreateTemplate`: POST `/templates` with a marshalled `SWUVersion`
body. -/
def CreateTemplate (c : SWUClient) (template : SWUVersion) (t : TransportResult) :
    HTTPRequest × Except ReqError SWUTemplate :=
  let out := makeRequest c "POST" "/templates"
    (some (Json.render template.marshal)) t
    (some (jsonSink SWUTemplate.unmarshalInto {}))
  (out.1, extractSome {} out.2)

/-- `CreateTemplateVersion`: POST `/templates/{id}/versions`. -/
def CreateTemplateVersion (c : SWUClient) (id : String) (template : SWUVersion)
    (t : TransportResult) : HTTPRequest × Except ReqError SWUTemplate :=
  let out := makeRequest c "POST" ("/templates/" ++ id ++ "/versions")
    (some (Json.render template.marshal)) t
    (some (jsonSink SWUTemplate.unmarshalInto {}))
  (out.1, extractSome {} out.2)

/-- `Send`: POST `/send` with a marshalled `SWUEmail` body and no result
sink. -/
def Send (c : SWUClient) (email : SWUEmail) (t : TransportResult) :
    HTTPRequest × Except ReqError Unit :=
  let out := makeRequest c "POST" "/send" (some (Json.render email.marshal)) t
    (none : Option (String → Except String Unit))
  (out.1, match out.2 with
          | .error e => .error e
          | .ok _ => .ok ())

/-- `ActivateDripCampaign`: POST `/drip_campaigns/{id}/activate` with a
marshalled `SWUDripCampaign` body and no result sink. -/
def ActivateDripCampaign (c : SWUClient) (id : String)
    (dripCampaign : SWUDripCampaign) (t : TransportResult) :
    HTTPRequest × Except ReqError Unit :=
  let out := makeRequest c "POST" ("/drip_campaigns/" ++ id ++ "/activate")
    (some (Json.render dripCampaign.marshal)) t
    (none : Option (String → Except String Unit))
  (out.1, match out.2 with
          | .error e => .error e
          | .ok _ => .ok ())

/-- `query.Values` on `SWULogQuery`: each field tagged `url:"...,omitempty"`,
contributed in declaration order, omitted at zero. -/
def SWULogQuery.values (q : SWULogQuery) : List (String × String) :=
  (if q.Count = 0 then [] else [("count", toString q.Count)]) ++
  (if q.Offset = 0 then [] else [("offset", toString q.Offset)]) ++
  (if q.CreatedGT = 0 then [] else [("created_gt", toString q.CreatedGT)]) ++
  (if q.CreatedGTE = 0 then [] else [("created_gte", toString q.CreatedGTE)]) ++
  (if q.CreatedLT = 0 then [] else [("created_lt", toString q.CreatedLT)]) ++
  (if q.CreatedLTE = 0 then [] else [("created_lte", toString q.CreatedLTE)])

/-- `url.Values.Encode`: keys in sorted order, `key=value` joined by `&`.
The values produced by `SWULogQuery.values` are decimal integers, on which
query escaping is the identity. -/
def urlValuesEncode (vs : List (String × String)) : String :=
  String.intercalate "&" ((sortByKey vs).map fun p => p.1 ++ "=" ++ p.2)

/-- `GetLogs`: GET `/logs?{encoded query}` into `[]*SWULog`. -/
def GetLogs (c : SWUClient) (q : SWULogQuery) (t : TransportResult) :
    HTTPRequest × Except ReqError (List SWULog) :=
  let out := makeRequest c "GET" ("/logs?" ++ urlValuesEncode q.values) none t
    (some fun b =>
      match Json.parse b with
      | .error msg => .error msg
      | .ok j => decodeLogList j)
  (out.1, extractSome [] out.2)

/-- `GetLog`: GET `/logs/{id}`. -/
def GetLog (c : SWUClient) (id : String) (t : TransportResult) :
    HTTPRequest × Except ReqError SWULog :=
  let out := makeRequest c "GET" ("/logs/" ++ id) none t
    (some (jsonSink SWULog.unmarshalInto {}))
  (out.1, extractSome {} out.2)

/-- `GetLogEvents`: GET `/logs/{id}/events`. -/
def GetLogEvents (c : SWUClient) (id : String) (t : TransportResult) :
    HTTPRequest × Except ReqError SWULogEvent :=
  let out := makeRequest c "GET" ("/logs/" ++ id ++ "/events") none t
    (some (jsonSink SWULogEvent.unmarshalInto {}))
  (out.1, extractSome {} out.2)

/-- `ResendLog`: pre-populate an `SWULogResend` with the identifier, marshal
it as the POST body for `/resend`, and decode the response into the same
value — fields the response omits keep their pre-set contents. -/
def ResendLog (c : SWUClient) (id : String) (t : TransportResult) :
    HTTPRequest × Except ReqError SWULogResend :=
  let parse : SWULogResend := { ID := id }
  let out := makeRequest c "POST" "/resend" (some (Json.render parse.marshal)) t
    (some (jsonSink SWULogResend.unmarshalInto parse))
  (out.1, extractSome parse out.2)

/-! ### General lemmas about the request pipeline -/

/-- On a successful exchange below 300 whose body the sink decodes, the
pipeline returns the decoded value. -/
theorem makeRequest_ok {α : Type} (c : SWUClient) (method endpoint : String)
    (body : Option String) (status : Nat) (b : String)
    (parse : String → Except String α) (a : α)
    (hs : status < 300) (hp : parse b = .ok a) :
    (makeRequest c method endpoint body (.response status (.ok b)) (some parse)).2 =
      .ok (some a) := by
  have hns : ¬ 300 ≤ status := Nat.not_le.mpr hs
  simp [makeRequest, buildRespJSON, hp, hns]

/-! ### The claims -/

/-- C1, counterexample: `ResendLog "log123"` does not send the body
`{"log_id":"log123"}` — the marshalled `SWULogResend` also carries the
`email` member, whose anonymous struct has no `omitempty`. -/
theorem C1_counterexample :
    (ResendLog (New "k") "log123" (.doError none "boom")).1.body ≠
      some (Json.render (Json.obj [("log_id", Json.str "log123")])) := by
  decide

/-- C1 (amended): for every non-empty log identifier `id`, `ResendLog id`
sends a POST to `/resend` whose JSON body is the object with exactly the
members `log_id` (the identifier) and `email` (the always-marshalled
anonymous struct with empty `name` and `version_name`). -/
theorem C1_resend_body (c : SWUClient) (id : String) (t : TransportResult)
    (h : id ≠ "") :
    (ResendLog c id t).1.method = "POST" ∧
    (ResendLog c id t).1.url = c.URL ++ "/resend" ∧
    (ResendLog c id t).1.body =
      some (Json.render (Json.obj [("log_id", Json.str id),
        ("email", Json.obj [("name", Json.str ""),
                            ("version_name", Json.str "")])])) := by
  refine ⟨rfl, rfl, ?_⟩
  simp [ResendLog, makeRequest, SWULogResend.marshal, h]

/-- C1 witness: the amended body claim at `id = "log123"`. -/
theorem C1_resend_body_witness :
    ("log123" : String) ≠ "" ∧
    (ResendLog (New "k") "log123" (.doError none "boom")).1.body =
      some (Json.render (Json.obj [("log_id", Json.str "log123"),
        ("email", Json.obj [("name", Json.str ""),
                            ("version_name", Json.str "")])])) :=
  ⟨by decide, (C1_resend_body (New "k") "log123" (.doError none "boom") (by decide)).2.2⟩

/-- C2, counterexample: on a 200 response whose body is not valid JSON, the
call fails with the JSON decoder's own error, not with the status-carrying
`SWUError` shape used for transport failures. -/
theorem C2_counterexample :
    failedWithSWUError (ResendLog (New "k") "log123" (.response 200 (.ok "oops"))).2 = false ∧
    failedWithJSONErr (ResendLog (New "k") "log123" (.response 200 (.ok "oops"))).2 = true := by
  constructor
  · rfl
  · rfl

/-- C2 (amended): for every call with a non-nil result sink, when the
response status is below 300 but the body fails to deserialize, the error
returned is the deserializer's error propagated unchanged through the same
error channel — it carries only the decoder's message and, unlike the error
for a transport failure, no numeric status code field. -/
theorem C2_json_decode_error {α : Type} (c : SWUClient) (method endpoint : String)
    (body : Option String) (status : Nat) (b : String)
    (parse : String → Except String α) (msg : String)
    (hs : status < 300) (hp : parse b = .error msg) :
    (makeRequest c method endpoint body (.response status (.ok b)) (some parse)).2 =
      .error (.jsonErr msg) := by
  have hns : ¬ 300 ≤ status := Nat.not_le.mpr hs
  simp [makeRequest, buildRespJSON, hp, hns]

/-- C2 witness: the amended claim at `ResendLog`'s sink and the body
`"oops"`. -/
theorem C2_json_decode_error_witness :
    (200 : Nat) < 300 ∧
    jsonSink SWULogResend.unmarshalInto { ID := "log123" } "oops" =
      .error "invalid JSON value" ∧
    (makeRequest (New "k") "POST" "/resend" none (.response 200 (.ok "oops"))
        (some (jsonSink SWULogResend.unmarshalInto { ID := "log123" }))).2 =
      .error (.jsonErr "invalid JSON value") :=
  ⟨by decide, rfl,
    C2_json_decode_error (New "k") "POST" "/resend" none 200 "oops"
      (jsonSink SWULogResend.unmarshalInto { ID := "log123" })
      "invalid JSON value" (by decide) rfl⟩

/-- C3: for every request and every response with status ≥ 300 (redirects
included) whose body was read, the call fails and the error carries exactly
the response status as its code and the raw body text as its message —
whatever the body, the empty body included. -/
theorem C3_error_status (α : Type) (c : SWUClient) (method endpoint : String)
    (body : Option String) (sink : Option (String → Except String α))
    (status : Nat) (b : String) (h : 300 ≤ status) :
    (makeRequest c method endpoint body (.response status (.ok b)) sink).2 =
      .error (.swu { Code := status, Message := b }) := by
  simp [makeRequest, newSWUError, h]

/-- C3 witness: a 302 redirect with an empty body. -/
theorem C3_error_status_witness :
    (300 : Nat) ≤ 302 ∧
    (makeRequest (New "k") "GET" "/templates" none (.response 302 (.ok ""))
        (none : Option (String → Except String Unit))).2 =
      .error (.swu { Code := 302, Message := "" }) :=
  ⟨by decide,
    C3_error_status Unit (New "k") "GET" "/templates" none none 302 "" (by decide)⟩

/-- C4: for every request, when the HTTP execution itself fails with no
response produced, the call fails with code 0 and the transport error's
text as its message. -/
theorem C4_transport_failure (α : Type) (c : SWUClient) (method endpoint : String)
    (body : Option String) (sink : Option (String → Except String α)) (msg : String) :
    (makeRequest c method endpoint body (.doError none msg) sink).2 =
      .error (.swu { Code := 0, Message := msg }) :=
  rfl

/-- C5: `GetLogs` with count 10, offset 0, createdGT 1000 and all other
fields zero issues a GET whose encoded query string is exactly
`count=10&created_gt=1000` — the zero-valued fields are omitted. -/
theorem C5_getlogs_query (c : SWUClient) (t : TransportResult) :
    (GetLogs c { Count := 10, Offset := 0, CreatedGT := 1000,
                 CreatedGTE := 0, CreatedLT := 0, CreatedLTE := 0 } t).1.method = "GET" ∧
    (GetLogs c { Count := 10, Offset := 0, CreatedGT := 1000,
                 CreatedGTE := 0, CreatedLT := 0, CreatedLTE := 0 } t).1.url =
      c.URL ++ "/logs?count=10&created_gt=1000" := by
  refine ⟨rfl, ?_⟩
  show c.URL ++ _ = c.URL ++ _
  congr 1
  with_unfolding_all rfl

/-- C6: for every log identifier `id` and every successful (< 300) response
with body `{"success":true,"status":"queued"}`, `ResendLog id` returns a
result whose `ID` is still `id` (the response omits `log_id`, so the
pre-set identifier survives deserialization), whose `Success` is true and
whose `Status` is `"queued"`. -/
theorem C6_resend_result (c : SWUClient) (id : String) (status : Nat)
    (h : status < 300) :
    (ResendLog c id (.response status (.ok
        (Json.render (Json.obj [("success", Json.bool true),
                                ("status", Json.str "queued")]))))).2 =
      .ok { Success := true, Status := "queued", ID := id, Email := {} } := by
  have hp : jsonSink SWULogResend.unmarshalInto ({ ID := id } : SWULogResend)
      (Json.render (Json.obj [("success", Json.bool true),
                              ("status", Json.str "queued")])) =
      .ok { Success := true, Status := "queued", ID := id, Email := {} } := rfl
  show extractSome _ (makeRequest _ _ _ _ _ _).2 = _
  rw [makeRequest_ok _ _ _ _ _ _ _ _ h hp]
  rfl

/-- C6 witness: the claim at `id = "log123"`, status 200. -/
theorem C6_resend_result_witness :
    (200 : Nat) < 300 ∧
    (ResendLog (New "k") "log123" (.response 200 (.ok
        (Json.render (Json.obj [("success", Json.bool true),
                                ("status", Json.str "queued")]))))).2 =
      .ok { Success := true, Status := "queued", ID := "log123", Email := {} } :=
  ⟨by decide, C6_resend_result (New "k") "log123" 200 (by decide)⟩

/-- C7: `Send` and `ActivateDripCampaign` pass no result sink, so on any
response with status below 300 they succeed whatever the body — empty body
included — which is read and discarded, never parsed. -/
theorem C7_no_sink_discards_body (c : SWUClient) (email : SWUEmail) (id : String)
    (dripCampaign : SWUDripCampaign) (status : Nat) (b : String)
    (h : status < 300) :
    (Send c email (.response status (.ok b))).2 = .ok () ∧
    (ActivateDripCampaign c id dripCampaign (.response status (.ok b))).2 = .ok () := by
  have hns : ¬ 300 ≤ status := Nat.not_le.mpr h
  constructor <;> simp [Send, ActivateDripCampaign, makeRequest, hns]

/-- C7 witness: a minimal email and campaign against a 200 with empty
body. -/
theorem C7_no_sink_discards_body_witness :
    (200 : Nat) < 300 ∧
    (Send (New "k") { Recipient := some { Address := "a@b.c" } }
        (.response 200 (.ok ""))).2 = .ok () ∧
    (ActivateDripCampaign (New "k") "dc_1" {} (.response 200 (.ok ""))).2 = .ok () :=
  ⟨by decide,
    (C7_no_sink_discards_body (New "k") { Recipient := some { Address := "a@b.c" } }
      "dc_1" {} 200 "" (by decide)).1,
    (C7_no_sink_discards_body (New "k") { Recipient := some { Address := "a@b.c" } }
      "dc_1" {} 200 "" (by decide)).2⟩

/-- C8: marshalling a `SWUTemplate` whose only non-zero field is `Name`
yields a JSON object with exactly the single member `name`; every
zero-valued field (empty string, empty/nil slice, zero int) is omitted. -/
theorem C8_template_marshal_name_only (n : String) (h : n ≠ "") :
    SWUTemplate.marshal { ID := "", Tags := [], Created := 0, Versions := [], Name := n } =
      Json.obj [("name", Json.str n)] := by
  simp [SWUTemplate.marshal, h]

/-- C8 witness: the claim at `Name = "welcome"`. -/
theorem C8_template_marshal_name_only_witness :
    ("welcome" : String) ≠ "" ∧
    SWUTemplate.marshal { ID := "", Tags := [], Created := 0, Versions := [],
                          Name := "welcome" } =
      Json.obj [("name", Json.str "welcome")] :=
  ⟨by decide, C8_template_marshal_name_only "welcome" (by decide)⟩

/-- C9: `Templates` and `Emails` are the same operation — for every client
and every transport outcome, `Templates` issues the identical GET request to
`/templates` and returns exactly what `Emails` returns. -/
theorem C9_templates_eq_emails (c : SWUClient) (t : TransportResult) :
    Templates c t = Emails c t :=
  rfl

/-- C10: for every request, when a response was received but reading its
body fails, the call fails with the response's actual status code (not 0)
and the read error's text as the message — distinct, whenever the status is
positive, from the code-0 error produced when no response was received. -/
theorem C10_read_failure_keeps_status (α : Type) (c : SWUClient)
    (method endpoint : String) (body : Option String)
    (sink : Option (String → Except String α)) (status : Nat) (msg : String) :
    (makeRequest c method endpoint body (.response status (.readError msg)) sink).2 =
      .error (.swu { Code := status, Message := msg }) ∧
    (0 < status →
      (makeRequest c method endpoint body (.response status (.readError msg)) sink).2 ≠
        (makeRequest c method endpoint body (.doError none msg) sink).2) := by
  refine ⟨rfl, fun hpos heq => ?_⟩
  have hz : status = 0 := by
    simpa [makeRequest, newSWUError] using heq
  omega

/-- C10 witness: a 500 response whose body read fails mid-stream. -/
theorem C10_read_failure_keeps_status_witness :
    (makeRequest (New "k") "GET" "/templates" none
        (.response 500 (.readError "conn reset"))
        (none : Option (String → Except String Unit))).2 =
      .error (.swu { Code := 500, Message := "conn reset" }) ∧
    (makeRequest (New "k") "GET" "/templates" none
        (.response 500 (.readError "conn reset"))
        (none : Option (String → Except String Unit))).2 ≠
      (makeRequest (New "k") "GET" "/templates" none (.doError none "conn reset")
        (none : Option (String → Except String Unit))).2 :=
  ⟨(C10_read_failure_keeps_status Unit (New "k") "GET" "/templates" none none
      500 "conn reset").1,
   (C10_read_failure_keeps_status Unit (New "k") "GET" "/templates" none none
      500 "conn reset").2 (by decide)⟩

end SWU
